import Mathlib

/-!
Shallow embedding of `src/code.ts`, the message dispatcher of the
ctrl-f-design Figma plugin.

The host (Figma) document is modelled as an association list of nodes
keyed by numeric ids, together with the current selection, the viewport
center, and the observable effect logs (notifications, external opens,
viewport framings).  Coordinates are exact rationals.

Handler bodies run in an explicit exception-plus-state style: designated
host API calls (node creation, clone, append, resize, font load,
external open, viewport scroll) may throw a JavaScript value, modelled
by `Thrown`.  A throwing call performs no mutation; mutations made by
earlier calls persist, matching JavaScript try/catch semantics.
Plain property assignments (`frame.name = ...`, `duplicate.x += 20`,
selection assignment) and `figma.notify` are modelled as infallible.
A fault schedule `Faults` says, for each host-call index in the run,
whether that call throws and with which value.

Per the Figma API, `node.clone()` parents the clone like the original;
the handlers below immediately re-parent every clone with
`figma.currentPage.appendChild`, so the model keeps the source's parent
on the freshly cloned node and lets `appendChild` move it to the page.
-/

inductive Paint where
  | solid (r g b : Rat)
  | gradientLinear (stops : List (Rat × Rat × Rat × Rat × Rat)) (transform : List (List Rat))
deriving DecidableEq

inductive NodeType where
  | frame
  | text
  | other
deriving DecidableEq

structure NodeData where
  ntype : NodeType
  name : String
  x : Rat
  y : Rat
  width : Rat
  height : Rat
  chars : String
  fontSize : Rat
  fills : List Paint
  parent : Option Nat
deriving DecidableEq

structure FigmaState where
  nodes : List (Nat × NodeData)
  nextId : Nat
  selection : List Nat
  centerX : Rat
  centerY : Rat
  notifications : List String
  externalOpens : List String
  framedOn : Option (List Nat)
  logs : List String
deriving DecidableEq

structure Exec where
  fig : FigmaState
  calls : Nat
deriving DecidableEq

/-- A JavaScript value thrown by a host call: either an `Error` object
carrying a message, or any other value. -/
inductive Thrown where
  | errObj (msg : String)
  | nonError
deriving DecidableEq

/-- `error instanceof Error ? error.message : 'Unknown error'` (lines 89, 145, 164). -/
def errorMessage : Thrown → String
  | .errObj m => m
  | .nonError => "Unknown error"

abbrev Faults := Nat → Option Thrown

def noFaults : Faults := fun _ => none

def failAt (m : Nat) (t : Thrown) : Faults := fun n => if n = m then some t else none

abbrev HRes (α : Type) := Except (Thrown × Exec) (α × Exec)

/-- Run one fallible host call: consult the fault schedule at the current
call index; on a fault the state is unchanged (but the call counted),
otherwise perform the state transformation. -/
def hostCall {α : Type} (fl : Faults) (e : Exec) (f : FigmaState → α × FigmaState) : HRes α :=
  match fl e.calls with
  | some t => .error (t, { e with calls := e.calls + 1 })
  | none =>
      let r := f e.fig
      .ok (r.1, { fig := r.2, calls := e.calls + 1 })

def defaultNode : NodeData :=
  { ntype := .other, name := "", x := 0, y := 0, width := 0, height := 0,
    chars := "", fontSize := 0, fills := [], parent := none }

def getNode (s : FigmaState) (i : Nat) : NodeData :=
  (s.nodes.lookup i).getD defaultNode

/-- Infallible property assignment on a node. -/
def updateNode (s : FigmaState) (i : Nat) (f : NodeData → NodeData) : FigmaState :=
  { s with nodes := s.nodes.map fun p => if p.1 = i then (p.1, f p.2) else p }

def pureUpdate (e : Exec) (i : Nat) (f : NodeData → NodeData) : Exec :=
  { e with fig := updateNode e.fig i f }

/-- `figma.notify(msg)`: modelled infallible (no document mutation). -/
def notifyE (e : Exec) (m : String) : Exec :=
  { e with fig := { e.fig with notifications := e.fig.notifications ++ [m] } }

/-- `node.clone()` (line 79): fresh id, same data (including parent). -/
def cloneNode (fl : Faults) (e : Exec) (i : Nat) : HRes Nat :=
  hostCall fl e fun s =>
    (s.nextId,
     { s with nodes := s.nodes ++ [(s.nextId, getNode s i)], nextId := s.nextId + 1 })

/-- `figma.currentPage.appendChild(node)` (lines 82, 131): the node is
moved to the end of the page's children; its parent becomes the page. -/
def appendPage (fl : Faults) (e : Exec) (i : Nat) : HRes Unit :=
  hostCall fl e fun s =>
    ((), { s with nodes := (s.nodes.filter fun p => p.1 != i)
                             ++ [(i, { getNode s i with parent := none })] })

/-- `parentNode.appendChild(node)` (line 128). -/
def appendChildNode (fl : Faults) (e : Exec) (par i : Nat) : HRes Unit :=
  hostCall fl e fun s =>
    ((), { s with nodes := (s.nodes.filter fun p => p.1 != i)
                             ++ [(i, { getNode s i with parent := some par })] })

/-- Host defaults for a freshly created frame. -/
def frameDefault : NodeData :=
  { ntype := .frame, name := "Frame", x := 0, y := 0, width := 100, height := 100,
    chars := "", fontSize := 0, fills := [Paint.solid 1 1 1], parent := none }

/-- Host defaults for a freshly created text node. -/
def textDefault : NodeData :=
  { ntype := .text, name := "Text", x := 0, y := 0, width := 0, height := 0,
    chars := "", fontSize := 12, fills := [Paint.solid 0 0 0], parent := none }

/-- `figma.createFrame()` (line 98). -/
def createFrame (fl : Faults) (e : Exec) : HRes Nat :=
  hostCall fl e fun s =>
    (s.nextId, { s with nodes := s.nodes ++ [(s.nextId, frameDefault)], nextId := s.nextId + 1 })

/-- `figma.createText()` (line 121). -/
def createText (fl : Faults) (e : Exec) : HRes Nat :=
  hostCall fl e fun s =>
    (s.nextId, { s with nodes := s.nodes ++ [(s.nextId, textDefault)], nextId := s.nextId + 1 })

/-- `node.resize(w, h)` (line 100). -/
def resizeNode (fl : Faults) (e : Exec) (i : Nat) (w h : Rat) : HRes Unit :=
  hostCall fl e fun s => ((), updateNode s i fun d => { d with width := w, height := h })

/-- `figma.loadFontAsync(...)` (line 122): may fail, no state change. -/
def loadFontAsync (fl : Faults) (e : Exec) : HRes Unit :=
  hostCall fl e fun s => ((), s)

/-- `figma.openExternal(url)` (line 154). -/
def openExternal (fl : Faults) (e : Exec) (u : String) : HRes Unit :=
  hostCall fl e fun s => ((), { s with externalOpens := s.externalOpens ++ [u] })

/-- `figma.viewport.scrollAndZoomIntoView(nodes)` (lines 86, 135). -/
def scrollAndZoomIntoView (fl : Faults) (e : Exec) (ids : List Nat) : HRes Unit :=
  hostCall fl e fun s => ((), { s with framedOn := some ids })

/-- `figma.currentPage.selection = ids` (lines 85, 134): property assignment. -/
def setSelection (e : Exec) (ids : List Nat) : Exec :=
  { e with fig := { e.fig with selection := ids } }

/-- The duplication loop of `handleCopyLayer` (lines 77-84). -/
def copyLoop (fl : Faults) : List Nat → List Nat → Exec → HRes (List Nat)
  | [], acc, e => .ok (acc.reverse, e)
  | i :: rest, acc, e =>
      match cloneNode fl e i with
      | .error te => .error te
      | .ok (j, e1) =>
          let e2 := pureUpdate e1 j fun d => { d with x := d.x + 20, y := d.y + 20 }
          match appendPage fl e2 j with
          | .error te => .error te
          | .ok (_, e3) => copyLoop fl rest (j :: acc) e3

def copyMsg (title : String) : String :=
  "✓ Ready to copy: " ++ title ++ ". Use Cmd+C (Mac) or Ctrl+C (Windows) to copy selected layers."

/-- Body of the `try` block of `handleCopyLayer` (lines 58-86). -/
def copyBody (fl : Faults) (title : String) (e : Exec) : HRes Unit :=
  if e.fig.selection.length = 0 then
    .ok ((), notifyE e "Please select a layer to copy first")
  else
    match copyLoop fl e.fig.selection [] (notifyE e (copyMsg title)) with
    | .error te => .error te
    | .ok (dups, e2) =>
        match scrollAndZoomIntoView fl (setSelection e2 dups) dups with
        | .error te => .error te
        | .ok (_, e3) => .ok ((), e3)

/-- `handleCopyLayer` (lines 56-92): body plus its own catch. -/
def handleCopyLayer (fl : Faults) (url title : String) (e : Exec) : Exec :=
  match copyBody fl title e with
  | .ok (_, e1) => e1
  | .error (t, e1) => notifyE e1 ("Error copying layer: " ++ errorMessage t)

/-- The gradient fill set at lines 111-118 (stop = position, r, g, b, a). -/
def insertGradient : List Paint :=
  [Paint.gradientLinear
     [((0 : Rat), 0.4, 0.49, 0.92, 1), ((1 : Rat), 0.46, 0.64, 0.29, 1)]
     [[0, 1, 0], [1, 0, 0]]]

/-- Body of the `try` block of `handleInsertDesign` (lines 96-137). -/
def insertBody (fl : Faults) (title : String) (e : Exec) : HRes Unit :=
  match createFrame fl e with
  | .error te => .error te
  | .ok (fid, e1) =>
      let e2 := pureUpdate e1 fid fun d => { d with name := title }
      match resizeNode fl e2 fid 400 300 with
      | .error te => .error te
      | .ok (_, e3) =>
          let cx := e3.fig.centerX - 200
          let cy := e3.fig.centerY - 150
          let e4 := pureUpdate e3 fid fun d => { d with x := cx }
          let e5 := pureUpdate e4 fid fun d => { d with y := cy }
          let e6 := pureUpdate e5 fid fun d => { d with fills := insertGradient }
          match createText fl e6 with
          | .error te => .error te
          | .ok (tid, e7) =>
              match loadFontAsync fl e7 with
              | .error te => .error te
              | .ok (_, e8) =>
                  let e9 := pureUpdate e8 tid fun d => { d with chars := title }
                  let e10 := pureUpdate e9 tid fun d => { d with fontSize := 16 }
                  let e11 := pureUpdate e10 tid fun d => { d with fills := [Paint.solid 1 1 1] }
                  let e12 := pureUpdate e11 tid fun d => { d with x := 20 }
                  let e13 := pureUpdate e12 tid fun d => { d with y := 20 }
                  match appendChildNode fl e13 fid tid with
                  | .error te => .error te
                  | .ok (_, e14) =>
                      match appendPage fl e14 fid with
                      | .error te => .error te
                      | .ok (_, e15) =>
                          match scrollAndZoomIntoView fl (setSelection e15 [fid]) [fid] with
                          | .error te => .error te
                          | .ok (_, e17) =>
                              .ok ((), notifyE e17 ("✓ Inserted design: " ++ title))

/-- `handleInsertDesign` (lines 95-148): body plus its own catch. -/
def handleInsertDesign (fl : Faults) (url title : String) (e : Exec) : Exec :=
  match insertBody fl title e with
  | .ok (_, e1) => e1
  | .error (t, e1) => notifyE e1 ("Error inserting design: " ++ errorMessage t)

/-- Body of the `try` block of `handleGoToFile` (lines 152-155). -/
def gotoBody (fl : Faults) (url title : String) (e : Exec) : HRes Unit :=
  match openExternal fl e url with
  | .error te => .error te
  | .ok (_, e1) => .ok ((), notifyE e1 ("Opening: " ++ title))

/-- `handleGoToFile` (lines 151-167): body plus its own catch. -/
def handleGoToFile (fl : Faults) (url title : String) (e : Exec) : Exec :=
  match gotoBody fl url title e with
  | .ok (_, e1) => e1
  | .error (t, e1) => notifyE e1 ("Error opening file: " ++ errorMessage t)

/-- `PluginMessage` (lines 4-16); `action` is a plain string so that
values crossing a serialization boundary can be modelled. -/
inductive PluginMessage where
  | userMessage (text : String)
  | previewAction (action url title : String)

/-- `figma.ui.onmessage` (lines 26-53). -/
def onmessage (fl : Faults) (msg : PluginMessage) (e : Exec) : Exec :=
  match msg with
  | .userMessage t =>
      { e with fig := { e.fig with logs := e.fig.logs ++ ["User message: " ++ t] } }
  | .previewAction a u t =>
      if a = "copy" then handleCopyLayer fl u t e
      else if a = "insert" then handleInsertDesign fl u t e
      else if a = "goto" then handleGoToFile fl u t e
      else e

/-- Node ids in the document are below `nextId` (freshness of new ids). -/
def WfState (s : FigmaState) : Prop := ∀ p ∈ s.nodes, p.1 < s.nextId

/-- Every selected id refers to a node present in the document. -/
def ValidSel (s : FigmaState) : Prop := ∀ i ∈ s.selection, (s.nodes.lookup i).isSome

instance (s : FigmaState) : Decidable (WfState s) := by
  unfold WfState; infer_instance

instance (s : FigmaState) : Decidable (ValidSel s) := by
  unfold ValidSel; infer_instance

/-- What one iteration of the copy loop makes of a source node: same data,
offset by the fixed delta (20, 20), re-parented to the current page. -/
def cloneData (d : NodeData) : NodeData :=
  { d with x := d.x + 20, y := d.y + 20, parent := none }

/-- The nodes the copy loop appends: clone of each source in order, with
consecutive fresh ids starting at `k`. -/
def clonesOf (s : FigmaState) : List Nat → Nat → List (Nat × NodeData)
  | [], _ => []
  | i :: rest, k => (k, cloneData (getNode s i)) :: clonesOf s rest (k + 1)

deriving instance DecidableEq for Except

/-! Concrete states used by witnesses and examples. -/

def baseExec : Exec :=
  { fig := { nodes := [], nextId := 0, selection := [], centerX := 0, centerY := 0,
             notifications := [], externalOpens := [], framedOn := none, logs := [] },
    calls := 0 }

def child8 : NodeData :=
  { ntype := .other, name := "child", x := 5, y := 6, width := 10, height := 10,
    chars := "", fontSize := 0, fills := [], parent := some 0 }

/-- A document with a frame (id 0) and a selected child of it (id 1). -/
def e8 : Exec :=
  { fig := { nodes := [(0, frameDefault), (1, child8)], nextId := 2, selection := [1],
             centerX := 0, centerY := 0,
             notifications := [], externalOpens := [], framedOn := none, logs := [] },
    calls := 0 }

/-- Empty document whose viewport center is (100, 100). -/
def e9 : Exec :=
  { fig := { nodes := [], nextId := 0, selection := [], centerX := 100, centerY := 100,
             notifications := [], externalOpens := [], framedOn := none, logs := [] },
    calls := 0 }

def frame9 : NodeData :=
  { ntype := .frame, name := "Login Screen", x := -100, y := -50, width := 400, height := 300,
    chars := "", fontSize := 0, fills := insertGradient, parent := none }

def text9 : NodeData :=
  { ntype := .text, name := "Text", x := 20, y := 20, width := 0, height := 0,
    chars := "Login Screen", fontSize := 16, fills := [Paint.solid 1 1 1], parent := some 0 }

def out9 : Exec :=
  { fig := { nodes := [(1, text9), (0, frame9)], nextId := 2, selection := [0],
             centerX := 100, centerY := 100,
             notifications := ["✓ Inserted design: Login Screen"],
             externalOpens := [], framedOn := some [0], logs := [] },
    calls := 7 }

/-- Claim C5: a `copy` message handled with an empty selection performs no
mutation and issues exactly one "please select" notification: the result
is the input state with exactly the one notification appended. -/
theorem copy_empty_selection_notifies (fl : Faults) (url title : String) (e : Exec)
    (h : e.fig.selection = []) :
    handleCopyLayer fl url title e = notifyE e "Please select a layer to copy first" := by
  simp [handleCopyLayer, copyBody, h]

theorem copy_empty_selection_notifies_witness :
    handleCopyLayer noFaults "u" "t" baseExec = notifyE baseExec "Please select a layer to copy first" :=
  copy_empty_selection_notifies noFaults "u" "t" baseExec (by decide)

/-- Claim C6: `goto` never mutates the document (nodes, selection, id
supply and viewport framing are untouched under every fault schedule),
and when the external-open host call does not fail its only effects are
exactly one external open of the literal url and exactly one
notification containing the literal title. -/
theorem goto_no_document_mutation (fl : Faults) (url title : String) (e : Exec) :
    ((handleGoToFile fl url title e).fig.nodes = e.fig.nodes ∧
     (handleGoToFile fl url title e).fig.selection = e.fig.selection ∧
     (handleGoToFile fl url title e).fig.nextId = e.fig.nextId ∧
     (handleGoToFile fl url title e).fig.framedOn = e.fig.framedOn) ∧
    (fl e.calls = none →
     (handleGoToFile fl url title e).fig.externalOpens = e.fig.externalOpens ++ [url] ∧
     (handleGoToFile fl url title e).fig.notifications
        = e.fig.notifications ++ ["Opening: " ++ title]) := by
  cases hfl : fl e.calls <;>
    simp [handleGoToFile, gotoBody, openExternal, hostCall, hfl, notifyE]

theorem goto_no_document_mutation_witness :
    ((handleGoToFile noFaults "u" "t" baseExec).fig.nodes = baseExec.fig.nodes ∧
     (handleGoToFile noFaults "u" "t" baseExec).fig.selection = baseExec.fig.selection ∧
     (handleGoToFile noFaults "u" "t" baseExec).fig.nextId = baseExec.fig.nextId ∧
     (handleGoToFile noFaults "u" "t" baseExec).fig.framedOn = baseExec.fig.framedOn) ∧
    ((handleGoToFile noFaults "u" "t" baseExec).fig.externalOpens
        = baseExec.fig.externalOpens ++ ["u"] ∧
     (handleGoToFile noFaults "u" "t" baseExec).fig.notifications
        = baseExec.fig.notifications ++ ["Opening: " ++ "t"]) :=
  ⟨(goto_no_document_mutation noFaults "u" "t" baseExec).1,
   (goto_no_document_mutation noFaults "u" "t" baseExec).2 (by decide)⟩

/-- Claim C7: a `preview-action` message whose action is none of the
three enumerated values leaves the state exactly unchanged: no mutation,
no notification, no other effect. -/
theorem unknown_action_ignored (fl : Faults) (a url title : String) (e : Exec)
    (h1 : a ≠ "copy") (h2 : a ≠ "insert") (h3 : a ≠ "goto") :
    onmessage fl (.previewAction a url title) e = e := by
  simp [onmessage, h1, h2, h3]

theorem unknown_action_ignored_witness :
    onmessage noFaults (.previewAction "paste" "u" "t" ) e8 = e8 :=
  unknown_action_ignored noFaults "paste" "u" "t" e8 (by decide) (by decide) (by decide)

/-- Claim C4: a failure thrown anywhere in a handler body is caught at
that handler's own boundary: the handler returns the state at the
failure point with exactly one extra notification, prefixed
"Error copying layer: " / "Error inserting design: " /
"Error opening file: ", whose text is the thrown error's message for
`Error` objects and "Unknown error" otherwise; and after any copy
invocation the dispatcher still processes a subsequent goto message
normally (no stuck state). -/
theorem handler_failures_caught (fl : Faults) (url title : String) (e : Exec)
    (t : Thrown) (e1 : Exec) :
    (copyBody fl title e = .error (t, e1) →
       handleCopyLayer fl url title e = notifyE e1 ("Error copying layer: " ++ errorMessage t)) ∧
    (insertBody fl title e = .error (t, e1) →
       handleInsertDesign fl url title e
         = notifyE e1 ("Error inserting design: " ++ errorMessage t)) ∧
    (gotoBody fl url title e = .error (t, e1) →
       handleGoToFile fl url title e = notifyE e1 ("Error opening file: " ++ errorMessage t)) ∧
    (∀ u2 t2 : String,
       (onmessage noFaults (.previewAction "goto" u2 t2) (handleCopyLayer fl url title e)).fig.externalOpens
         = (handleCopyLayer fl url title e).fig.externalOpens ++ [u2]) := by
  refine ⟨fun h => ?_, fun h => ?_, fun h => ?_, fun u2 t2 => ?_⟩
  · simp [handleCopyLayer, h]
  · simp [handleInsertDesign, h]
  · simp [handleGoToFile, h]
  · simp [onmessage, handleGoToFile, gotoBody, openExternal, hostCall, noFaults, notifyE]

/-- State of `e8` right after the pre-loop success notification of a
copy with title "t"; the failing first clone leaves it unchanged. -/
def e8CopyFail : Exec :=
  { fig := { e8.fig with notifications := [copyMsg "t"] }, calls := 1 }

def e8OneCall : Exec := { fig := e8.fig, calls := 1 }

theorem handler_failures_caught_witness :
    handleCopyLayer (failAt 0 Thrown.nonError) "u" "t" e8
      = notifyE e8CopyFail ("Error copying layer: " ++ errorMessage Thrown.nonError) ∧
    handleInsertDesign (failAt 0 (Thrown.errObj "boom")) "u" "t" e8
      = notifyE e8OneCall ("Error inserting design: " ++ errorMessage (Thrown.errObj "boom")) ∧
    handleGoToFile (failAt 0 Thrown.nonError) "u" "t" e8
      = notifyE e8OneCall ("Error opening file: " ++ errorMessage Thrown.nonError) ∧
    (onmessage noFaults (.previewAction "goto" "u2" "t2")
        (handleCopyLayer (failAt 0 Thrown.nonError) "u" "t" e8)).fig.externalOpens
      = (handleCopyLayer (failAt 0 Thrown.nonError) "u" "t" e8).fig.externalOpens ++ ["u2"] :=
  ⟨(handler_failures_caught (failAt 0 Thrown.nonError) "u" "t" e8 Thrown.nonError e8CopyFail).1
      (by decide),
   (handler_failures_caught (failAt 0 (Thrown.errObj "boom")) "u" "t" e8
      (Thrown.errObj "boom") e8OneCall).2.1 (by decide),
   (handler_failures_caught (failAt 0 Thrown.nonError) "u" "t" e8 Thrown.nonError e8OneCall).2.2.1
      (by decide),
   (handler_failures_caught (failAt 0 Thrown.nonError) "u" "t" e8 Thrown.nonError e8CopyFail).2.2.2
      "u2" "t2"⟩

section ListHelpers

variable {n m : Nat} {d : NodeData} {l l2 : List (Nat × NodeData)}

lemma lookup_cons_self : ((n, d) :: l).lookup n = some d := by
  simp [List.lookup]

lemma lookup_cons_ne (h : m ≠ n) : ((n, d) :: l).lookup m = l.lookup m := by
  have hb : (m == n) = false := by simp [h]
  simp [List.lookup, hb]

lemma lookup_append_keys_ne (h : ∀ p ∈ l, p.1 ≠ m) :
    (l ++ l2).lookup m = l2.lookup m := by
  induction l with
  | nil => simp
  | cons p t ih =>
      have hp : m ≠ p.1 := fun he => h p (by simp) (by omega)
      cases p with
      | mk k v =>
          simp only [List.cons_append, lookup_cons_ne hp]
          exact ih fun q hq => h q (by simp [hq])

lemma lookup_append_isSome (h : (l.lookup m).isSome) :
    (l ++ l2).lookup m = l.lookup m := by
  induction l with
  | nil => simp [List.lookup] at h
  | cons p t ih =>
      cases p with
      | mk k v =>
          by_cases hk : m = k
          · subst hk; simp [lookup_cons_self]
          · rw [List.cons_append, lookup_cons_ne hk, lookup_cons_ne hk]
            rw [lookup_cons_ne hk] at h
            exact ih h

lemma mapUpd_eq_self (h : ∀ p ∈ l, p.1 ≠ m) (g : Nat × NodeData → Nat × NodeData) :
    (l.map fun p => if p.1 = m then g p else p) = l := by
  induction l with
  | nil => simp
  | cons p t ih =>
      have hp : p.1 ≠ m := h p (by simp)
      simp only [List.map_cons, if_neg hp]
      rw [ih fun q hq => h q (by simp [hq])]

lemma filter_ne_eq_self (h : ∀ p ∈ l, p.1 ≠ m) :
    (l.filter fun p => p.1 != m) = l := by
  induction l with
  | nil => simp
  | cons p t ih =>
      have hp : p.1 ≠ m := h p (by simp)
      simp only [List.filter_cons, bne_iff_ne, ne_eq, hp, not_false_eq_true, if_pos, decide_eq_true_eq]
      rw [ih fun q hq => h q (by simp [hq])]

end ListHelpers

/-- The frame as configured by `handleInsertDesign`. -/
def insertFrame (title : String) (cx cy : Rat) : NodeData :=
  { ntype := .frame, name := title, x := cx - 200, y := cy - 150, width := 400, height := 300,
    chars := "", fontSize := 0, fills := insertGradient, parent := none }

/-- The text label as configured by `handleInsertDesign`. -/
def insertText (title : String) (fid : Nat) : NodeData :=
  { ntype := .text, name := "Text", x := 20, y := 20, width := 0, height := 0,
    chars := title, fontSize := 16, fills := [Paint.solid 1 1 1], parent := some fid }

/-- The fault-free result of `handleInsertDesign`. -/
def insertResult (title : String) (e : Exec) : Exec :=
  { fig := { e.fig with
      nodes := e.fig.nodes ++ [(e.fig.nextId + 1, insertText title e.fig.nextId),
                               (e.fig.nextId, insertFrame title e.fig.centerX e.fig.centerY)],
      nextId := e.fig.nextId + 2,
      selection := [e.fig.nextId],
      framedOn := some [e.fig.nextId],
      notifications := e.fig.notifications ++ ["✓ Inserted design: " ++ title] },
    calls := e.calls + 7 }

lemma insertBody_noFaults (title : String) (e : Exec) (hwf : WfState e.fig) :
    insertBody noFaults title e = .ok ((), insertResult title e) := by
  rcases e with ⟨⟨N0, n, sel, cx, cy, nots, exts, fr, lgs⟩, c⟩
  have hwfn : ∀ p ∈ N0, p.1 < n := hwf
  have hne : ∀ p ∈ N0, p.1 ≠ n := fun p hp => Nat.ne_of_lt (hwfn p hp)
  have hne1 : ∀ p ∈ N0, p.1 ≠ n + 1 := fun p hp => by have := hwfn p hp; omega
  have hsn : n + 1 ≠ n := by omega
  have hns : n ≠ n + 1 := by omega
  have h1 : createFrame noFaults ⟨⟨N0, n, sel, cx, cy, nots, exts, fr, lgs⟩, c⟩
      = .ok (n, ⟨⟨N0 ++ [(n, frameDefault)], n + 1, sel, cx, cy, nots, exts, fr, lgs⟩, c + 1⟩) :=
    rfl
  have h2 : pureUpdate ⟨⟨N0 ++ [(n, frameDefault)], n + 1, sel, cx, cy, nots, exts, fr, lgs⟩, c + 1⟩
        n (fun d => { d with name := title })
      = ⟨⟨N0 ++ [(n, ⟨.frame, title, 0, 0, 100, 100, "", 0, [Paint.solid 1 1 1], none⟩)],
          n + 1, sel, cx, cy, nots, exts, fr, lgs⟩, c + 1⟩ := by
    simp [pureUpdate, updateNode, mapUpd_eq_self hne, frameDefault]
  have h3 : resizeNode noFaults
        ⟨⟨N0 ++ [(n, ⟨.frame, title, 0, 0, 100, 100, "", 0, [Paint.solid 1 1 1], none⟩)],
          n + 1, sel, cx, cy, nots, exts, fr, lgs⟩, c + 1⟩ n 400 300
      = .ok ((), ⟨⟨N0 ++ [(n, ⟨.frame, title, 0, 0, 400, 300, "", 0, [Paint.solid 1 1 1], none⟩)],
          n + 1, sel, cx, cy, nots, exts, fr, lgs⟩, c + 2⟩) := by
    simp [resizeNode, hostCall, noFaults, updateNode, mapUpd_eq_self hne]
  have h4 : pureUpdate
        ⟨⟨N0 ++ [(n, ⟨.frame, title, 0, 0, 400, 300, "", 0, [Paint.solid 1 1 1], none⟩)],
          n + 1, sel, cx, cy, nots, exts, fr, lgs⟩, c + 2⟩ n (fun d => { d with x := cx - 200 })
      = ⟨⟨N0 ++ [(n, ⟨.frame, title, cx - 200, 0, 400, 300, "", 0, [Paint.solid 1 1 1], none⟩)],
          n + 1, sel, cx, cy, nots, exts, fr, lgs⟩, c + 2⟩ := by
    simp [pureUpdate, updateNode, mapUpd_eq_self hne]
  have h5 : pureUpdate
        ⟨⟨N0 ++ [(n, ⟨.frame, title, cx - 200, 0, 400, 300, "", 0, [Paint.solid 1 1 1], none⟩)],
          n + 1, sel, cx, cy, nots, exts, fr, lgs⟩, c + 2⟩ n (fun d => { d with y := cy - 150 })
      = ⟨⟨N0 ++ [(n, ⟨.frame, title, cx - 200, cy - 150, 400, 300, "", 0, [Paint.solid 1 1 1], none⟩)],
          n + 1, sel, cx, cy, nots, exts, fr, lgs⟩, c + 2⟩ := by
    simp [pureUpdate, updateNode, mapUpd_eq_self hne]
  have h6 : pureUpdate
        ⟨⟨N0 ++ [(n, ⟨.frame, title, cx - 200, cy - 150, 400, 300, "", 0, [Paint.solid 1 1 1], none⟩)],
          n + 1, sel, cx, cy, nots, exts, fr, lgs⟩, c + 2⟩ n (fun d => { d with fills := insertGradient })
      = ⟨⟨N0 ++ [(n, insertFrame title cx cy)],
          n + 1, sel, cx, cy, nots, exts, fr, lgs⟩, c + 2⟩ := by
    simp [pureUpdate, updateNode, mapUpd_eq_self hne, insertFrame]
  have h7 : createText noFaults
        ⟨⟨N0 ++ [(n, insertFrame title cx cy)], n + 1, sel, cx, cy, nots, exts, fr, lgs⟩, c + 2⟩
      = .ok (n + 1, ⟨⟨N0 ++ [(n, insertFrame title cx cy), (n + 1, textDefault)],
          n + 2, sel, cx, cy, nots, exts, fr, lgs⟩, c + 3⟩) := by
    simp [createText, hostCall, noFaults]
  have h8 : loadFontAsync noFaults
        ⟨⟨N0 ++ [(n, insertFrame title cx cy), (n + 1, textDefault)],
          n + 2, sel, cx, cy, nots, exts, fr, lgs⟩, c + 3⟩
      = .ok ((), ⟨⟨N0 ++ [(n, insertFrame title cx cy), (n + 1, textDefault)],
          n + 2, sel, cx, cy, nots, exts, fr, lgs⟩, c + 4⟩) := rfl
  have h9 : pureUpdate
        ⟨⟨N0 ++ [(n, insertFrame title cx cy), (n + 1, textDefault)],
          n + 2, sel, cx, cy, nots, exts, fr, lgs⟩, c + 4⟩ (n + 1) (fun d => { d with chars := title })
      = ⟨⟨N0 ++ [(n, insertFrame title cx cy),
                 (n + 1, ⟨.text, "Text", 0, 0, 0, 0, title, 12, [Paint.solid 0 0 0], none⟩)],
          n + 2, sel, cx, cy, nots, exts, fr, lgs⟩, c + 4⟩ := by
    simp [pureUpdate, updateNode, mapUpd_eq_self hne1, hns, textDefault]
  have h10 : pureUpdate
        ⟨⟨N0 ++ [(n, insertFrame title cx cy),
                 (n + 1, ⟨.text, "Text", 0, 0, 0, 0, title, 12, [Paint.solid 0 0 0], none⟩)],
          n + 2, sel, cx, cy, nots, exts, fr, lgs⟩, c + 4⟩ (n + 1) (fun d => { d with fontSize := 16 })
      = ⟨⟨N0 ++ [(n, insertFrame title cx cy),
                 (n + 1, ⟨.text, "Text", 0, 0, 0, 0, title, 16, [Paint.solid 0 0 0], none⟩)],
          n + 2, sel, cx, cy, nots, exts, fr, lgs⟩, c + 4⟩ := by
    simp [pureUpdate, updateNode, mapUpd_eq_self hne1, hns]
  have h11 : pureUpdate
        ⟨⟨N0 ++ [(n, insertFrame title cx cy),
                 (n + 1, ⟨.text, "Text", 0, 0, 0, 0, title, 16, [Paint.solid 0 0 0], none⟩)],
          n + 2, sel, cx, cy, nots, exts, fr, lgs⟩, c + 4⟩ (n + 1)
        (fun d => { d with fills := [Paint.solid 1 1 1] })
      = ⟨⟨N0 ++ [(n, insertFrame title cx cy),
                 (n + 1, ⟨.text, "Text", 0, 0, 0, 0, title, 16, [Paint.solid 1 1 1], none⟩)],
          n + 2, sel, cx, cy, nots, exts, fr, lgs⟩, c + 4⟩ := by
    simp [pureUpdate, updateNode, mapUpd_eq_self hne1, hns]
  have h12 : pureUpdate
        ⟨⟨N0 ++ [(n, insertFrame title cx cy),
                 (n + 1, ⟨.text, "Text", 0, 0, 0, 0, title, 16, [Paint.solid 1 1 1], none⟩)],
          n + 2, sel, cx, cy, nots, exts, fr, lgs⟩, c + 4⟩ (n + 1) (fun d => { d with x := 20 })
      = ⟨⟨N0 ++ [(n, insertFrame title cx cy),
                 (n + 1, ⟨.text, "Text", 20, 0, 0, 0, title, 16, [Paint.solid 1 1 1], none⟩)],
          n + 2, sel, cx, cy, nots, exts, fr, lgs⟩, c + 4⟩ := by
    simp [pureUpdate, updateNode, mapUpd_eq_self hne1, hns]
  have h13 : pureUpdate
        ⟨⟨N0 ++ [(n, insertFrame title cx cy),
                 (n + 1, ⟨.text, "Text", 20, 0, 0, 0, title, 16, [Paint.solid 1 1 1], none⟩)],
          n + 2, sel, cx, cy, nots, exts, fr, lgs⟩, c + 4⟩ (n + 1) (fun d => { d with y := 20 })
      = ⟨⟨N0 ++ [(n, insertFrame title cx cy),
                 (n + 1, ⟨.text, "Text", 20, 20, 0, 0, title, 16, [Paint.solid 1 1 1], none⟩)],
          n + 2, sel, cx, cy, nots, exts, fr, lgs⟩, c + 4⟩ := by
    simp [pureUpdate, updateNode, mapUpd_eq_self hne1, hns]
  have h14 : appendChildNode noFaults
        ⟨⟨N0 ++ [(n, insertFrame title cx cy),
                 (n + 1, ⟨.text, "Text", 20, 20, 0, 0, title, 16, [Paint.solid 1 1 1], none⟩)],
          n + 2, sel, cx, cy, nots, exts, fr, lgs⟩, c + 4⟩ n (n + 1)
      = .ok ((), ⟨⟨N0 ++ [(n, insertFrame title cx cy), (n + 1, insertText title n)],
          n + 2, sel, cx, cy, nots, exts, fr, lgs⟩, c + 5⟩) := by
    simp [appendChildNode, hostCall, noFaults, getNode,
          lookup_append_keys_ne hne1, lookup_cons_ne hsn, lookup_cons_self,
          filter_ne_eq_self hne1, List.filter_append, List.filter_cons, hns, hsn,
          insertText]
  have h15 : appendPage noFaults
        ⟨⟨N0 ++ [(n, insertFrame title cx cy), (n + 1, insertText title n)],
          n + 2, sel, cx, cy, nots, exts, fr, lgs⟩, c + 5⟩ n
      = .ok ((), ⟨⟨N0 ++ [(n + 1, insertText title n), (n, insertFrame title cx cy)],
          n + 2, sel, cx, cy, nots, exts, fr, lgs⟩, c + 6⟩) := by
    simp [appendPage, hostCall, noFaults, getNode,
          lookup_append_keys_ne hne, lookup_cons_self,
          filter_ne_eq_self hne, List.filter_append, List.filter_cons, hns, hsn,
          insertFrame]
  have h16 : scrollAndZoomIntoView noFaults
        (setSelection ⟨⟨N0 ++ [(n + 1, insertText title n), (n, insertFrame title cx cy)],
            n + 2, sel, cx, cy, nots, exts, fr, lgs⟩, c + 6⟩ [n]) [n]
      = .ok ((), ⟨⟨N0 ++ [(n + 1, insertText title n), (n, insertFrame title cx cy)],
          n + 2, [n], cx, cy, nots, exts, some [n], lgs⟩, c + 7⟩) := rfl
  simp only [insertBody, h1, h2, h3, h4, h5, h6, h7, h8, h9, h10, h11, h12, h13, h14, h15, h16]
  simp [insertResult, notifyE]

lemma handleInsertDesign_noFaults (url title : String) (e : Exec) (hwf : WfState e.fig) :
    handleInsertDesign noFaults url title e = insertResult title e := by
  simp [handleInsertDesign, insertBody_noFaults title e hwf]

lemma getNode_insertResult_frame (title : String) (e : Exec) (hwf : WfState e.fig) :
    getNode (insertResult title e).fig e.fig.nextId
      = insertFrame title e.fig.centerX e.fig.centerY := by
  have hne : ∀ p ∈ e.fig.nodes, p.1 ≠ e.fig.nextId := fun p hp => Nat.ne_of_lt (hwf p hp)
  have hsn : e.fig.nextId ≠ e.fig.nextId + 1 := by omega
  simp [insertResult, getNode, lookup_append_keys_ne hne, lookup_cons_ne hsn, lookup_cons_self]

/-- Claim C2: on the fault-free path, the frame created by the insert
handler has display name exactly `title` (any string, including empty
or with special characters) and size exactly 400 by 300, whatever
`title` and `url` are. -/
theorem insert_frame_name_and_size (url title : String) (e : Exec) (hwf : WfState e.fig) :
    (getNode (handleInsertDesign noFaults url title e).fig e.fig.nextId).name = title ∧
    (getNode (handleInsertDesign noFaults url title e).fig e.fig.nextId).width = 400 ∧
    (getNode (handleInsertDesign noFaults url title e).fig e.fig.nextId).height = 300 := by
  rw [handleInsertDesign_noFaults url title e hwf, getNode_insertResult_frame title e hwf]
  simp [insertFrame]

theorem insert_frame_name_and_size_witness :
    WfState e8.fig ∧
    ((getNode (handleInsertDesign noFaults "u" "" e8).fig e8.fig.nextId).name = "" ∧
     (getNode (handleInsertDesign noFaults "u" "" e8).fig e8.fig.nextId).width = 400 ∧
     (getNode (handleInsertDesign noFaults "u" "" e8).fig e8.fig.nextId).height = 300) :=
  ⟨by decide, insert_frame_name_and_size "u" "" e8 (by decide)⟩

/-- Claim C3: the created frame is positioned so that
(frame.x + 200, frame.y + 150) equals the viewport center read at call
time; coordinates are exact rationals in the model, so negative and
fractional centers are preserved exactly, with no rounding anywhere. -/
theorem insert_frame_centered (url title : String) (e : Exec) (hwf : WfState e.fig) :
    (getNode (handleInsertDesign noFaults url title e).fig e.fig.nextId).x + 200
        = e.fig.centerX ∧
    (getNode (handleInsertDesign noFaults url title e).fig e.fig.nextId).y + 150
        = e.fig.centerY ∧
    (handleInsertDesign noFaults url title e).fig.centerX = e.fig.centerX ∧
    (handleInsertDesign noFaults url title e).fig.centerY = e.fig.centerY := by
  rw [handleInsertDesign_noFaults url title e hwf, getNode_insertResult_frame title e hwf]
  refine ⟨?_, ?_, by simp [insertResult], by simp [insertResult]⟩
  · simp [insertFrame]
  · simp [insertFrame]

/-- A state whose viewport center is negative and fractional. -/
def eFrac : Exec :=
  { fig := { nodes := [], nextId := 0, selection := [], centerX := -7/2, centerY := 5/4,
             notifications := [], externalOpens := [], framedOn := none, logs := [] },
    calls := 0 }

theorem insert_frame_centered_witness :
    WfState eFrac.fig ∧
    ((getNode (handleInsertDesign noFaults "u" "t" eFrac).fig eFrac.fig.nextId).x + 200
        = eFrac.fig.centerX ∧
     (getNode (handleInsertDesign noFaults "u" "t" eFrac).fig eFrac.fig.nextId).y + 150
        = eFrac.fig.centerY ∧
     (handleInsertDesign noFaults "u" "t" eFrac).fig.centerX = eFrac.fig.centerX ∧
     (handleInsertDesign noFaults "u" "t" eFrac).fig.centerY = eFrac.fig.centerY) :=
  ⟨by decide, insert_frame_centered "u" "t" eFrac (by decide)⟩

/-- Claim C9: the end-to-end insert example: from an empty document with
viewport center (100, 100), the message
`previewAction "insert" "https://figma.com/x" "Login Screen"` produces
exactly the state `out9`: one frame (id 0) named "Login Screen" at
(-100, -50) sized 400 by 300, one text node (id 1) inside that frame
reading "Login Screen", the frame selected and framed, and exactly one
success notification, whose text contains "Login Screen". -/
theorem insert_end_to_end_example :
    onmessage noFaults (.previewAction "insert" "https://figma.com/x" "Login Screen") e9 = out9 ∧
    (getNode out9.fig 0).name = "Login Screen" ∧
    (getNode out9.fig 0).x = -100 ∧ (getNode out9.fig 0).y = -50 ∧
    (getNode out9.fig 0).width = 400 ∧ (getNode out9.fig 0).height = 300 ∧
    (getNode out9.fig 1).ntype = NodeType.text ∧
    (getNode out9.fig 1).chars = "Login Screen" ∧
    (getNode out9.fig 1).parent = some 0 ∧
    (∃ pre post : String,
       out9.fig.notifications = [pre ++ "Login Screen" ++ post]) := by
  refine ⟨?_, by decide, by decide, by decide, by decide, by decide, by decide,
          by decide, by decide, ⟨"✓ Inserted design: ", "", by decide⟩⟩
  have h : onmessage noFaults (.previewAction "insert" "https://figma.com/x" "Login Screen") e9
      = handleInsertDesign noFaults "https://figma.com/x" "Login Screen" e9 := by
    simp [onmessage]
  rw [h, handleInsertDesign_noFaults _ _ e9 (by decide)]
  simp [insertResult, insertFrame, insertText, e9, out9, frame9, text9, insertGradient]
  norm_num

lemma lookup_append_last {l : List (Nat × NodeData)} {n : Nat} (h : ∀ p ∈ l, p.1 ≠ n)
    (d : NodeData) : (l ++ [(n, d)]).lookup n = some d := by
  rw [lookup_append_keys_ne h, lookup_cons_self]

lemma clonesOf_length (s : FigmaState) (sel : List Nat) (k : Nat) :
    (clonesOf s sel k).length = sel.length := by
  induction sel generalizing k with
  | nil => simp [clonesOf]
  | cons i rest ih => simp [clonesOf, ih]

lemma clonesOf_congr {s1 s2 : FigmaState} (sel : List Nat) (k : Nat)
    (h : ∀ i ∈ sel, getNode s1 i = getNode s2 i) :
    clonesOf s1 sel k = clonesOf s2 sel k := by
  induction sel generalizing k with
  | nil => simp [clonesOf]
  | cons i rest ih =>
      simp only [clonesOf, h i (by simp)]
      rw [ih (k + 1) fun q hq => h q (by simp [hq])]

lemma clonesOf_keys (s : FigmaState) (sel : List Nat) (k : Nat) :
    ∀ p ∈ clonesOf s sel k, k ≤ p.1 ∧ p.1 < k + sel.length := by
  induction sel generalizing k with
  | nil => simp [clonesOf]
  | cons i rest ih =>
      intro p hp
      simp only [clonesOf, List.mem_cons] at hp
      rcases hp with hp | hp
      · subst hp; simp
      · have := ih (k + 1) p hp
        constructor <;> [omega; (simp only [List.length_cons]; omega)]

lemma clonesOf_lookup (s : FigmaState) (sel : List Nat) (k j : Nat) (hj : j < sel.length) :
    (clonesOf s sel k).lookup (k + j) = some (cloneData (getNode s (sel.get ⟨j, hj⟩))) := by
  induction sel generalizing k j with
  | nil => simp at hj
  | cons i rest ih =>
      cases j with
      | zero => simp [clonesOf, lookup_cons_self]
      | succ j' =>
          have hkj : k + (j' + 1) ≠ k := by omega
          have hj' : j' < rest.length := by simpa using hj
          simp only [clonesOf, lookup_cons_ne hkj]
          have := ih (k + 1) j' hj'
          rw [show k + 1 + j' = k + (j' + 1) from by omega] at this
          simpa using this

lemma copyLoop_noFaults (sel : List Nat) :
    ∀ (acc : List Nat) (e : Exec),
      (∀ p ∈ e.fig.nodes, p.1 < e.fig.nextId) →
      (∀ i ∈ sel, ((e.fig.nodes).lookup i).isSome) →
      copyLoop noFaults sel acc e =
        .ok (acc.reverse ++ (List.range sel.length).map (e.fig.nextId + ·),
             Exec.mk
               { e.fig with
                 nodes := e.fig.nodes ++ clonesOf e.fig sel e.fig.nextId,
                 nextId := e.fig.nextId + sel.length }
               (e.calls + 2 * sel.length)) := by
  induction sel with
  | nil =>
      intro acc e _ _
      simp [copyLoop, clonesOf]
  | cons i rest ih =>
      rintro acc ⟨⟨N0, n, sel0, cx, cy, nots, exts, fr, lgs⟩, c⟩ hwf hv
      have hwfn : ∀ p ∈ N0, p.1 < n := hwf
      have hvn : ∀ i' ∈ i :: rest, (N0.lookup i').isSome := hv
      have hne : ∀ p ∈ N0, p.1 ≠ n := fun p hp => Nat.ne_of_lt (hwfn p hp)
      have h1 : cloneNode noFaults ⟨⟨N0, n, sel0, cx, cy, nots, exts, fr, lgs⟩, c⟩ i
          = .ok (n, ⟨⟨N0 ++ [(n, getNode ⟨N0, n, sel0, cx, cy, nots, exts, fr, lgs⟩ i)],
              n + 1, sel0, cx, cy, nots, exts, fr, lgs⟩, c + 1⟩) := rfl
      have h2 : pureUpdate ⟨⟨N0 ++ [(n, getNode ⟨N0, n, sel0, cx, cy, nots, exts, fr, lgs⟩ i)],
              n + 1, sel0, cx, cy, nots, exts, fr, lgs⟩, c + 1⟩ n
            (fun d => { d with x := d.x + 20, y := d.y + 20 })
          = ⟨⟨N0 ++ [(n, { getNode ⟨N0, n, sel0, cx, cy, nots, exts, fr, lgs⟩ i with
                  x := (getNode ⟨N0, n, sel0, cx, cy, nots, exts, fr, lgs⟩ i).x + 20,
                  y := (getNode ⟨N0, n, sel0, cx, cy, nots, exts, fr, lgs⟩ i).y + 20 })],
              n + 1, sel0, cx, cy, nots, exts, fr, lgs⟩, c + 1⟩ := by
        simp [pureUpdate, updateNode, mapUpd_eq_self hne]
      have h3 : appendPage noFaults
            ⟨⟨N0 ++ [(n, { getNode ⟨N0, n, sel0, cx, cy, nots, exts, fr, lgs⟩ i with
                  x := (getNode ⟨N0, n, sel0, cx, cy, nots, exts, fr, lgs⟩ i).x + 20,
                  y := (getNode ⟨N0, n, sel0, cx, cy, nots, exts, fr, lgs⟩ i).y + 20 })],
              n + 1, sel0, cx, cy, nots, exts, fr, lgs⟩, c + 1⟩ n
          = .ok ((), ⟨⟨N0 ++ [(n, cloneData (getNode ⟨N0, n, sel0, cx, cy, nots, exts, fr, lgs⟩ i))],
              n + 1, sel0, cx, cy, nots, exts, fr, lgs⟩, c + 2⟩) := by
        simp only [appendPage, hostCall, noFaults, getNode, cloneData,
          lookup_append_last hne, filter_ne_eq_self hne, List.filter_append, List.filter_cons]
        simp [filter_ne_eq_self hne]
      simp only [copyLoop, h1, h2, h3]
      have hwf3 : ∀ p ∈ (⟨⟨N0 ++ [(n, cloneData (getNode ⟨N0, n, sel0, cx, cy, nots, exts, fr, lgs⟩ i))],
              n + 1, sel0, cx, cy, nots, exts, fr, lgs⟩, c + 2⟩ : Exec).fig.nodes,
          p.1 < n + 1 := by
        intro p hp
        simp only [List.mem_append, List.mem_singleton] at hp
        rcases hp with hp | hp
        · exact Nat.lt_succ_of_lt (hwfn p hp)
        · subst hp; omega
      have hv3 : ∀ i' ∈ rest,
          (((⟨⟨N0 ++ [(n, cloneData (getNode ⟨N0, n, sel0, cx, cy, nots, exts, fr, lgs⟩ i))],
              n + 1, sel0, cx, cy, nots, exts, fr, lgs⟩, c + 2⟩ : Exec).fig.nodes).lookup i').isSome := by
        intro i' hi'
        have h0 : (N0.lookup i').isSome := hvn i' (by simp [hi'])
        rw [lookup_append_isSome h0]
        exact h0
      rw [ih (n :: acc) _ hwf3 hv3]
      have hgn : ∀ i' ∈ rest,
          getNode (⟨⟨N0 ++ [(n, cloneData (getNode ⟨N0, n, sel0, cx, cy, nots, exts, fr, lgs⟩ i))],
              n + 1, sel0, cx, cy, nots, exts, fr, lgs⟩, c + 2⟩ : Exec).fig i'
            = getNode (⟨⟨N0, n, sel0, cx, cy, nots, exts, fr, lgs⟩, c⟩ : Exec).fig i' := by
        intro i' hi'
        have h0 : (N0.lookup i').isSome := hvn i' (by simp [hi'])
        simp only [getNode]
        rw [lookup_append_isSome h0]
      have hcc := @clonesOf_congr
          (⟨⟨N0 ++ [(n, cloneData (getNode ⟨N0, n, sel0, cx, cy, nots, exts, fr, lgs⟩ i))],
              n + 1, sel0, cx, cy, nots, exts, fr, lgs⟩, c + 2⟩ : Exec).fig
          (⟨⟨N0, n, sel0, cx, cy, nots, exts, fr, lgs⟩, c⟩ : Exec).fig rest (n + 1) hgn
      simp only [Except.ok.injEq, Prod.mk.injEq]
      constructor
      · simp only [List.reverse_cons, List.length_cons, List.range_succ_eq_map,
          List.map_cons, List.map_map, List.append_assoc, List.singleton_append,
          Nat.add_zero, List.cons.injEq, true_and]
        congr 1
        congr 1
        apply List.map_congr_left
        intro j hj
        simp only [Function.comp_apply]
        omega
      · simp only [hcc, clonesOf, List.length_cons]
        simp [List.append_assoc]
        omega

/-- The fault-free result of `handleCopyLayer` on a non-empty selection. -/
def copyResult (title : String) (e : Exec) : Exec :=
  { fig := { e.fig with
      nodes := e.fig.nodes ++ clonesOf e.fig e.fig.selection e.fig.nextId,
      nextId := e.fig.nextId + e.fig.selection.length,
      selection := (List.range e.fig.selection.length).map (e.fig.nextId + ·),
      framedOn := some ((List.range e.fig.selection.length).map (e.fig.nextId + ·)),
      notifications := e.fig.notifications ++ [copyMsg title] },
    calls := e.calls + 2 * e.fig.selection.length + 1 }

lemma handleCopyLayer_noFaults (url title : String) (e : Exec)
    (hwf : WfState e.fig) (hv : ValidSel e.fig) (hne : e.fig.selection ≠ []) :
    handleCopyLayer noFaults url title e = copyResult title e := by
  rcases e with ⟨⟨N0, n, sel0, cx, cy, nots, exts, fr, lgs⟩, c⟩
  have hwfn : ∀ p ∈ N0, p.1 < n := hwf
  have hvn : ∀ i ∈ sel0, (N0.lookup i).isSome := hv
  have hne0 : sel0 ≠ [] := hne
  have hlen : ¬ sel0.length = 0 := by simpa [List.length_eq_zero] using hne0
  have hloop := copyLoop_noFaults sel0 []
      ⟨⟨N0, n, sel0, cx, cy, nots ++ [copyMsg title], exts, fr, lgs⟩, c⟩ hwfn hvn
  have hcl : clonesOf ⟨N0, n, sel0, cx, cy, nots ++ [copyMsg title], exts, fr, lgs⟩ sel0 n
      = clonesOf ⟨N0, n, sel0, cx, cy, nots, exts, fr, lgs⟩ sel0 n :=
    clonesOf_congr sel0 n (fun i _ => rfl)
  simp only [handleCopyLayer, copyBody, hlen, if_neg, if_false, notifyE]
  rw [hloop]
  simp [setSelection, scrollAndZoomIntoView, hostCall, noFaults, copyResult, hcl]

/-- Claim C1: on the fault-free path with a non-empty selection of size
N, copy appends exactly N new nodes, the j-th being a clone of the j-th
selected node offset by the fixed delta (20, 20) from that source alone
(clones are not chained); the selection afterwards is exactly the N
fresh ids in input order, and the viewport is framed on precisely that
new selection. -/
theorem copy_duplicates_selection (url title : String) (e : Exec)
    (hwf : WfState e.fig) (hv : ValidSel e.fig) (hne : e.fig.selection ≠ []) :
    handleCopyLayer noFaults url title e = copyResult title e ∧
    (copyResult title e).fig.nodes
      = e.fig.nodes ++ clonesOf e.fig e.fig.selection e.fig.nextId ∧
    (clonesOf e.fig e.fig.selection e.fig.nextId).length = e.fig.selection.length ∧
    (copyResult title e).fig.selection
      = (List.range e.fig.selection.length).map (e.fig.nextId + ·) ∧
    (copyResult title e).fig.framedOn = some ((copyResult title e).fig.selection) ∧
    (∀ j (hj : j < e.fig.selection.length),
       ((copyResult title e).fig.nodes).lookup (e.fig.nextId + j)
         = some (cloneData (getNode e.fig (e.fig.selection.get ⟨j, hj⟩)))) := by
  refine ⟨handleCopyLayer_noFaults url title e hwf hv hne, by simp [copyResult],
          clonesOf_length _ _ _, by simp [copyResult], by simp [copyResult], ?_⟩
  intro j hj
  have hkeys : ∀ p ∈ e.fig.nodes, p.1 ≠ e.fig.nextId + j := fun p hp => by
    have := hwf p hp; omega
  simp only [copyResult]
  rw [lookup_append_keys_ne hkeys, clonesOf_lookup e.fig e.fig.selection e.fig.nextId j hj]

theorem copy_duplicates_selection_witness :
    WfState e8.fig ∧ ValidSel e8.fig ∧ e8.fig.selection ≠ [] ∧
    (handleCopyLayer noFaults "u" "t" e8 = copyResult "t" e8 ∧
     (copyResult "t" e8).fig.nodes
       = e8.fig.nodes ++ clonesOf e8.fig e8.fig.selection e8.fig.nextId ∧
     (clonesOf e8.fig e8.fig.selection e8.fig.nextId).length = e8.fig.selection.length ∧
     (copyResult "t" e8).fig.selection
       = (List.range e8.fig.selection.length).map (e8.fig.nextId + ·) ∧
     (copyResult "t" e8).fig.framedOn = some ((copyResult "t" e8).fig.selection) ∧
     (∀ j (hj : j < e8.fig.selection.length),
        ((copyResult "t" e8).fig.nodes).lookup (e8.fig.nextId + j)
          = some (cloneData (getNode e8.fig (e8.fig.selection.get ⟨j, hj⟩))))) :=
  ⟨by decide, by decide, by decide,
   copy_duplicates_selection "u" "t" e8 (by decide) (by decide) (by decide)⟩

/-- Claim C8 is false as stated: in `e8` the selected node (id 1) has
parent frame id 0, but its clone (id 2) ends up a direct child of the
current page (parent `none`), because the handler appends every clone to
`figma.currentPage`, not to the source's parent. -/
theorem clone_parent_counterexample :
    (getNode e8.fig 1).parent = some 0 ∧
    (getNode (handleCopyLayer noFaults "u" "t" e8).fig 2).parent = none ∧
    (getNode (handleCopyLayer noFaults "u" "t" e8).fig 2).parent
      ≠ (getNode e8.fig 1).parent := by
  refine ⟨by decide, ?_, ?_⟩
  · rw [handleCopyLayer_noFaults "u" "t" e8 (by decide) (by decide) (by decide)]
    have hkeys : ∀ p ∈ e8.fig.nodes, p.1 ≠ e8.fig.nextId + 0 := by decide
    have h2 : (2 : Nat) = e8.fig.nextId + 0 := by decide
    simp only [copyResult, getNode, h2]
    rw [lookup_append_keys_ne hkeys,
        clonesOf_lookup e8.fig e8.fig.selection e8.fig.nextId 0 (by decide)]
    simp [cloneData]
  · rw [handleCopyLayer_noFaults "u" "t" e8 (by decide) (by decide) (by decide)]
    have hkeys : ∀ p ∈ e8.fig.nodes, p.1 ≠ e8.fig.nextId + 0 := by decide
    have h2 : (2 : Nat) = e8.fig.nextId + 0 := by decide
    simp only [copyResult, getNode, h2]
    rw [lookup_append_keys_ne hkeys,
        clonesOf_lookup e8.fig e8.fig.selection e8.fig.nextId 0 (by decide)]
    simp [cloneData]
    decide

/-- Claim C8 (amended): every clone made by the copy handler is appended
as a direct child of the current page (parent `none`), regardless of its
source's parent; this coincides with "same parent context" only when the
source is itself a direct child of the current page. -/
theorem copy_clones_under_current_page (url title : String) (e : Exec)
    (hwf : WfState e.fig) (hv : ValidSel e.fig) (hne : e.fig.selection ≠ []) :
    ∀ j (hj : j < e.fig.selection.length),
      (getNode (handleCopyLayer noFaults url title e).fig (e.fig.nextId + j)).parent = none := by
  intro j hj
  rw [handleCopyLayer_noFaults url title e hwf hv hne]
  have hkeys : ∀ p ∈ e.fig.nodes, p.1 ≠ e.fig.nextId + j := fun p hp => by
    have := hwf p hp; omega
  simp only [copyResult, getNode]
  rw [lookup_append_keys_ne hkeys,
      clonesOf_lookup e.fig e.fig.selection e.fig.nextId j hj]
  simp [cloneData]

theorem copy_clones_under_current_page_witness :
    WfState e8.fig ∧ ValidSel e8.fig ∧ e8.fig.selection ≠ [] ∧ 0 < e8.fig.selection.length ∧
    (getNode (handleCopyLayer noFaults "u" "t" e8).fig (e8.fig.nextId + 0)).parent = none :=
  ⟨by decide, by decide, by decide, by decide,
   copy_clones_under_current_page "u" "t" e8 (by decide) (by decide) (by decide) 0 (by decide)⟩

lemma copyLoop_failAt (sel : List Nat) :
    ∀ (k : Nat) (acc : List Nat) (e : Exec) (t : Thrown),
      k < sel.length →
      (∀ p ∈ e.fig.nodes, p.1 < e.fig.nextId) →
      (∀ i ∈ sel, ((e.fig.nodes).lookup i).isSome) →
      copyLoop (failAt (e.calls + 2 * k) t) sel acc e =
        .error (t, Exec.mk
          { e.fig with
            nodes := e.fig.nodes ++ clonesOf e.fig (sel.take k) e.fig.nextId,
            nextId := e.fig.nextId + k }
          (e.calls + 2 * k + 1)) := by
  induction sel with
  | nil =>
      intro k acc e t hk _ _
      simp at hk
  | cons i rest ih =>
      rintro k acc ⟨⟨N0, n, sel0, cx, cy, nots, exts, fr, lgs⟩, c⟩ t hk hwf hv
      have hwfn : ∀ p ∈ N0, p.1 < n := hwf
      have hvn : ∀ i' ∈ i :: rest, (N0.lookup i').isSome := hv
      have hne : ∀ p ∈ N0, p.1 ≠ n := fun p hp => Nat.ne_of_lt (hwfn p hp)
      cases k with
      | zero =>
          have hf : failAt (c + 2 * 0) t c = some t := by simp [failAt]
          simp only [copyLoop, cloneNode, hostCall, hf]
          simp [clonesOf]
      | succ k' =>
          have hf0 : failAt (c + 2 * (k' + 1)) t c = none := by
            have hx : ¬ c = c + 2 * (k' + 1) := by omega
            simp [failAt, hx]
          have hf1 : failAt (c + 2 * (k' + 1)) t (c + 1) = none := by
            have hx : ¬ c + 1 = c + 2 * (k' + 1) := by omega
            simp [failAt, hx]
          have h1 : cloneNode (failAt (c + 2 * (k' + 1)) t)
                ⟨⟨N0, n, sel0, cx, cy, nots, exts, fr, lgs⟩, c⟩ i
              = .ok (n, ⟨⟨N0 ++ [(n, getNode ⟨N0, n, sel0, cx, cy, nots, exts, fr, lgs⟩ i)],
                  n + 1, sel0, cx, cy, nots, exts, fr, lgs⟩, c + 1⟩) := by
            simp [cloneNode, hostCall, hf0]
          have h2 : pureUpdate ⟨⟨N0 ++ [(n, getNode ⟨N0, n, sel0, cx, cy, nots, exts, fr, lgs⟩ i)],
                  n + 1, sel0, cx, cy, nots, exts, fr, lgs⟩, c + 1⟩ n
                (fun d => { d with x := d.x + 20, y := d.y + 20 })
              = ⟨⟨N0 ++ [(n, { getNode ⟨N0, n, sel0, cx, cy, nots, exts, fr, lgs⟩ i with
                      x := (getNode ⟨N0, n, sel0, cx, cy, nots, exts, fr, lgs⟩ i).x + 20,
                      y := (getNode ⟨N0, n, sel0, cx, cy, nots, exts, fr, lgs⟩ i).y + 20 })],
                  n + 1, sel0, cx, cy, nots, exts, fr, lgs⟩, c + 1⟩ := by
            simp [pureUpdate, updateNode, mapUpd_eq_self hne]
          have h3 : appendPage (failAt (c + 2 * (k' + 1)) t)
                ⟨⟨N0 ++ [(n, { getNode ⟨N0, n, sel0, cx, cy, nots, exts, fr, lgs⟩ i with
                      x := (getNode ⟨N0, n, sel0, cx, cy, nots, exts, fr, lgs⟩ i).x + 20,
                      y := (getNode ⟨N0, n, sel0, cx, cy, nots, exts, fr, lgs⟩ i).y + 20 })],
                  n + 1, sel0, cx, cy, nots, exts, fr, lgs⟩, c + 1⟩ n
              = .ok ((), ⟨⟨N0 ++ [(n, cloneData (getNode ⟨N0, n, sel0, cx, cy, nots, exts, fr, lgs⟩ i))],
                  n + 1, sel0, cx, cy, nots, exts, fr, lgs⟩, c + 2⟩) := by
            simp only [appendPage, hostCall, hf1, getNode, cloneData,
              lookup_append_last hne, List.filter_append, List.filter_cons]
            simp [filter_ne_eq_self hne]
          simp only [copyLoop, h1, h2, h3]
          have hwf3 : ∀ p ∈ (⟨⟨N0 ++ [(n, cloneData (getNode ⟨N0, n, sel0, cx, cy, nots, exts, fr, lgs⟩ i))],
                  n + 1, sel0, cx, cy, nots, exts, fr, lgs⟩, c + 2⟩ : Exec).fig.nodes,
              p.1 < n + 1 := by
            intro p hp
            simp only [List.mem_append, List.mem_singleton] at hp
            rcases hp with hp | hp
            · exact Nat.lt_succ_of_lt (hwfn p hp)
            · subst hp; omega
          have hv3 : ∀ i' ∈ rest,
              (((⟨⟨N0 ++ [(n, cloneData (getNode ⟨N0, n, sel0, cx, cy, nots, exts, fr, lgs⟩ i))],
                  n + 1, sel0, cx, cy, nots, exts, fr, lgs⟩, c + 2⟩ : Exec).fig.nodes).lookup i').isSome := by
            intro i' hi'
            have h0 : (N0.lookup i').isSome := hvn i' (by simp [hi'])
            rw [lookup_append_isSome h0]
            exact h0
          have hk' : k' < rest.length := by simpa using hk
          have harg : failAt (c + 2 * (k' + 1)) t = failAt ((c + 2) + 2 * k') t := by
            rw [show c + 2 * (k' + 1) = (c + 2) + 2 * k' from by omega]
          rw [harg, ih k' (n :: acc) _ t hk' hwf3 hv3]
          have hgn : ∀ i' ∈ rest.take k',
              getNode (⟨⟨N0 ++ [(n, cloneData (getNode ⟨N0, n, sel0, cx, cy, nots, exts, fr, lgs⟩ i))],
                  n + 1, sel0, cx, cy, nots, exts, fr, lgs⟩, c + 2⟩ : Exec).fig i'
                = getNode (⟨⟨N0, n, sel0, cx, cy, nots, exts, fr, lgs⟩, c⟩ : Exec).fig i' := by
            intro i' hi'
            have h0 : (N0.lookup i').isSome := hvn i' (by simp [List.take_subset k' rest hi'])
            simp only [getNode]
            rw [lookup_append_isSome h0]
          have hcc := @clonesOf_congr
              (⟨⟨N0 ++ [(n, cloneData (getNode ⟨N0, n, sel0, cx, cy, nots, exts, fr, lgs⟩ i))],
                  n + 1, sel0, cx, cy, nots, exts, fr, lgs⟩, c + 2⟩ : Exec).fig
              (⟨⟨N0, n, sel0, cx, cy, nots, exts, fr, lgs⟩, c⟩ : Exec).fig
              (rest.take k') (n + 1) hgn
          simp only [Except.error.injEq, Prod.mk.injEq, List.take_succ_cons]
          constructor
          · trivial
          · simp only [hcc, clonesOf]
            simp [List.append_assoc]
            try omega

/-- Claim C10: the copy handler issues its success notification before
any cloning: if the host fails at the clone of index k (any k < N), the
final state holds the success notification followed by exactly one error
notification — two notifications for the single message — and the
document has gained only the clones of the first k selected nodes, a
strict prefix of the N requested (none at all when k = 0). -/
theorem copy_notifies_before_cloning (url title : String) (e : Exec) (t : Thrown) (k : Nat)
    (hwf : WfState e.fig) (hv : ValidSel e.fig) (hk : k < e.fig.selection.length) :
    handleCopyLayer (failAt (e.calls + 2 * k) t) url title e
      = Exec.mk
          { e.fig with
            nodes := e.fig.nodes ++ clonesOf e.fig (e.fig.selection.take k) e.fig.nextId,
            nextId := e.fig.nextId + k,
            notifications := e.fig.notifications
              ++ [copyMsg title, "Error copying layer: " ++ errorMessage t] }
          (e.calls + 2 * k + 1) ∧
    (clonesOf e.fig (e.fig.selection.take k) e.fig.nextId).length = k := by
  rcases e with ⟨⟨N0, n, sel0, cx, cy, nots, exts, fr, lgs⟩, c⟩
  have hwfn : ∀ p ∈ N0, p.1 < n := hwf
  have hvn : ∀ i ∈ sel0, (N0.lookup i).isSome := hv
  have hk0 : k < sel0.length := hk
  have hlen : ¬ sel0.length = 0 := by omega
  have hloop : copyLoop (failAt (c + 2 * k) t) sel0 []
        ⟨⟨N0, n, sel0, cx, cy, nots ++ [copyMsg title], exts, fr, lgs⟩, c⟩
      = .error (t, ⟨⟨N0 ++ clonesOf ⟨N0, n, sel0, cx, cy, nots ++ [copyMsg title], exts, fr, lgs⟩
            (sel0.take k) n,
          n + k, sel0, cx, cy, nots ++ [copyMsg title], exts, fr, lgs⟩, c + 2 * k + 1⟩) :=
    copyLoop_failAt sel0 k []
      ⟨⟨N0, n, sel0, cx, cy, nots ++ [copyMsg title], exts, fr, lgs⟩, c⟩ t hk0 hwfn hvn
  have hcl : clonesOf ⟨N0, n, sel0, cx, cy, nots ++ [copyMsg title], exts, fr, lgs⟩ (sel0.take k) n
      = clonesOf ⟨N0, n, sel0, cx, cy, nots, exts, fr, lgs⟩ (sel0.take k) n :=
    clonesOf_congr _ n (fun i _ => rfl)
  constructor
  · simp only [handleCopyLayer, copyBody, hlen, if_neg, if_false, notifyE]
    rw [hloop]
    simp [notifyE, hcl]
  · rw [clonesOf_length]
    simp only [List.length_take]
    omega

theorem copy_notifies_before_cloning_witness :
    WfState e8.fig ∧ ValidSel e8.fig ∧ 0 < e8.fig.selection.length ∧
    (handleCopyLayer (failAt (e8.calls + 2 * 0) (Thrown.errObj "boom")) "u" "t" e8
       = Exec.mk
           { e8.fig with
             nodes := e8.fig.nodes ++ clonesOf e8.fig (e8.fig.selection.take 0) e8.fig.nextId,
             nextId := e8.fig.nextId + 0,
             notifications := e8.fig.notifications
               ++ [copyMsg "t", "Error copying layer: " ++ errorMessage (Thrown.errObj "boom")] }
           (e8.calls + 2 * 0 + 1) ∧
     (clonesOf e8.fig (e8.fig.selection.take 0) e8.fig.nextId).length = 0) :=
  ⟨by decide, by decide, by decide,
   copy_notifies_before_cloning "u" "t" e8 (Thrown.errObj "boom") 0
     (by decide) (by decide) (by decide)⟩
